import Mathlib

/-!
Shallow embedding of the driver/networking core of the
`vscode-database-explorer` extension, together with verification of its
documented properties.

Embedding conventions:
* TypeScript strings are modelled as `List Nat` of Unicode code points
  (`codes` converts a Lean string literal).
* Promise-returning methods become pure functions returning
  `Except String α` (a rejected promise / thrown error is `.error msg`);
  mutation of `this` becomes explicit state passing.
* Backend I/O (pool queries, query APIs, driver connect/disconnect calls)
  is recorded in an explicit event trace so that "performs no backend I/O"
  and "disconnect was invoked" are statable.
-/

set_option autoImplicit false

/-- Unicode code points of a Lean string literal;
used to write concrete query texts. -/
def codes (s : String) : List Nat := s.data.map Char.toNat

/-! ## Capability model (`src/drivers/capabilities.ts`) -/

/-- `TreeStructureType` union from `types.ts`. -/
inductive TreeStructureType where
  | schemaTableColumn
  | databaseTableColumn
  | databaseCollection
  | bucketMeasurement
  | metricLabel
  | keyspace
deriving DecidableEq, Repr

/-- `DriverCapabilities` interface from `types.ts`: a flat record of
booleans plus the tree-structure tag. -/
structure DriverCapabilities where
  supportsSchemas : Bool
  supportsTables : Bool
  supportsViews : Bool
  supportsCollections : Bool
  supportsMeasurements : Bool
  supportsSQL : Bool
  supportsNoSQLQueries : Bool
  supportsFlux : Bool
  supportsPromQL : Bool
  supportsInsert : Bool
  supportsUpdate : Bool
  supportsDelete : Bool
  supportsTruncate : Bool
  supportsDDL : Bool
  supportsTransactions : Bool
  supportsPrimaryKeys : Bool
  supportsExport : Bool
  supportsRowEditing : Bool
  treeStructure : TreeStructureType
deriving DecidableEq, Repr

/-- `isWriteAllowed` from `capabilities.ts`: false when the connection is
read-only, otherwise true iff any of insert/update/delete is supported. -/
def isWriteAllowed (capabilities : DriverCapabilities) (connectionReadOnly : Bool) : Bool :=
  if connectionReadOnly then false
  else capabilities.supportsInsert || capabilities.supportsUpdate || capabilities.supportsDelete

/-- `getEffectiveCapabilities` from `capabilities.ts`: identity when the
connection is not read-only; otherwise the spread-with-overrides that
clears insert/update/delete/truncate/DDL/row-editing. -/
def getEffectiveCapabilities (capabilities : DriverCapabilities)
    (connectionReadOnly : Bool) : DriverCapabilities :=
  if !connectionReadOnly then capabilities
  else { capabilities with
    supportsInsert := false
    supportsUpdate := false
    supportsDelete := false
    supportsTruncate := false
    supportsDDL := false
    supportsRowEditing := false }

/-! ## Write-query classifier (`baseDriver.ts`, `replicaRouter.ts`) -/

/-- The subset of JavaScript `String.prototype.trim` whitespace relevant
here: TAB, LF, VT, FF, CR, space, NBSP, line/paragraph separator, BOM. -/
def jsWhitespace (c : Nat) : Bool :=
  c = 9 || c = 10 || c = 11 || c = 12 || c = 13 || c = 32 ||
  c = 160 || c = 8232 || c = 8233 || c = 65279

/-- `String.prototype.trim`: drop leading and trailing whitespace. -/
def jsTrim (s : List Nat) : List Nat :=
  ((s.dropWhile jsWhitespace).reverse.dropWhile jsWhitespace).reverse

/-- `String.prototype.toLowerCase` restricted to the ASCII range
(the write-prefix alternatives are all ASCII). -/
def lowerCode (c : Nat) : Nat :=
  if 65 ≤ c ∧ c ≤ 90 then c + 32 else c

/-- Lowercase an entire string. -/
def jsToLowerCase (s : List Nat) : List Nat := s.map lowerCode

/-- Whether `s` starts with the literal prefix `p`. -/
def startsWithL : List Nat → List Nat → Bool
  | _, [] => true
  | [], _ :: _ => false
  | c :: cs, p :: ps => c = p && startsWithL cs ps

/-- The alternatives of the regex
`/^(insert|update|delete|drop|alter|create|truncate|grant|revoke)/i`. -/
def writePrefixes : List (List Nat) :=
  [codes "insert", codes "update", codes "delete", codes "drop", codes "alter",
   codes "create", codes "truncate", codes "grant", codes "revoke"]

/-- `.test` of an anchored, case-insensitive alternation regex: the
subject starts with one of the alternatives, compared lowercased. -/
def regexTestAnchoredI (alternatives : List (List Nat)) (s : List Nat) : Bool :=
  alternatives.any (fun p => startsWithL (jsToLowerCase s) (jsToLowerCase p))

/-- `BaseDbDriver.isWriteQuery`: trim and lowercase the SQL text, then
test it against the write-prefix regex. -/
def BaseDbDriver.isWriteQuery (sql : List Nat) : Bool :=
  let normalized := jsToLowerCase (jsTrim sql)
  regexTestAnchoredI writePrefixes normalized

/-- `ReplicaRouter.isWriteQuery`: identical body to the base driver's. -/
def ReplicaRouter.isWriteQuery (sql : List Nat) : Bool :=
  let normalized := jsToLowerCase (jsTrim sql)
  regexTestAnchoredI writePrefixes normalized

/-- Specification-side predicate: `s` begins case-insensitively with `p`. -/
def beginsCaseInsensitivelyWith (s p : List Nat) : Bool :=
  startsWithL (jsToLowerCase s) (jsToLowerCase p)

theorem lowerCode_idem (c : Nat) : lowerCode (lowerCode c) = lowerCode c := by
  unfold lowerCode
  split
  · rw [if_neg]; omega
  · rfl

theorem jsToLowerCase_idem (s : List Nat) :
    jsToLowerCase (jsToLowerCase s) = jsToLowerCase s := by
  unfold jsToLowerCase
  rw [List.map_map]
  apply List.map_congr_left
  intro c _
  exact lowerCode_idem c

/-- Claim C4: the write-query classifier accepts a query exactly when its
trimmed text begins case-insensitively with one of the fixed prefixes;
`"   iNsErT into t ..."` (leading whitespace, mixed case) is classified as
a write query; the base driver and the replica router use the same
classifier. -/
theorem isWriteQuery_spec :
    (∀ sql : List Nat,
      BaseDbDriver.isWriteQuery sql = ReplicaRouter.isWriteQuery sql ∧
      (BaseDbDriver.isWriteQuery sql = true ↔
        ∃ p ∈ writePrefixes, beginsCaseInsensitivelyWith (jsTrim sql) p = true)) ∧
    BaseDbDriver.isWriteQuery (codes "   iNsErT into t ...") = true := by
  constructor
  · intro sql
    refine ⟨rfl, ?_⟩
    unfold BaseDbDriver.isWriteQuery regexTestAnchoredI beginsCaseInsensitivelyWith
    rw [List.any_eq_true]
    constructor
    · rintro ⟨p, hp, hs⟩
      refine ⟨p, hp, ?_⟩
      rwa [jsToLowerCase_idem] at hs
    · rintro ⟨p, hp, hs⟩
      refine ⟨p, hp, ?_⟩
      rwa [jsToLowerCase_idem]
  · decide

/-- Claim C3: read-only masking of capabilities. -/
theorem getEffectiveCapabilities_readOnly_spec (C : DriverCapabilities) :
    (getEffectiveCapabilities C true).supportsInsert = false ∧
    (getEffectiveCapabilities C true).supportsUpdate = false ∧
    (getEffectiveCapabilities C true).supportsDelete = false ∧
    (getEffectiveCapabilities C true).supportsTruncate = false ∧
    (getEffectiveCapabilities C true).supportsDDL = false ∧
    (getEffectiveCapabilities C true).supportsRowEditing = false ∧
    (getEffectiveCapabilities C true).supportsSchemas = C.supportsSchemas ∧
    (getEffectiveCapabilities C true).supportsTables = C.supportsTables ∧
    (getEffectiveCapabilities C true).supportsViews = C.supportsViews ∧
    (getEffectiveCapabilities C true).supportsCollections = C.supportsCollections ∧
    (getEffectiveCapabilities C true).supportsMeasurements = C.supportsMeasurements ∧
    (getEffectiveCapabilities C true).supportsSQL = C.supportsSQL ∧
    (getEffectiveCapabilities C true).supportsNoSQLQueries = C.supportsNoSQLQueries ∧
    (getEffectiveCapabilities C true).supportsFlux = C.supportsFlux ∧
    (getEffectiveCapabilities C true).supportsPromQL = C.supportsPromQL ∧
    (getEffectiveCapabilities C true).supportsTransactions = C.supportsTransactions ∧
    (getEffectiveCapabilities C true).supportsPrimaryKeys = C.supportsPrimaryKeys ∧
    (getEffectiveCapabilities C true).supportsExport = C.supportsExport ∧
    (getEffectiveCapabilities C true).treeStructure = C.treeStructure ∧
    getEffectiveCapabilities C false = C := by
  cases C
  simp [getEffectiveCapabilities]

/-- Claim C8: the read-only capability transformation is idempotent. -/
theorem getEffectiveCapabilities_idem (C : DriverCapabilities) (r : Bool) :
    getEffectiveCapabilities (getEffectiveCapabilities C r) r =
      getEffectiveCapabilities C r := by
  cases r <;> cases C <;> rfl

/-! ## Driver instances and backend I/O events

A concrete driver instance is abstracted to its identity, its connected
flag (`BaseDbDriver.connected` / a non-null client handle), the `readOnly`
flag of the `ConnectionConfig` it was built from, and two behavioural
flags saying whether its backend `connect` / `disconnect` calls fail.
Effectful calls are recorded as events. -/

/-- Events emitted towards driver backends. -/
inductive DrvEvent where
  /-- `driver.connect()` was invoked on the driver with this identity. -/
  | connectCall (did : Nat)
  /-- `driver.disconnect()` was invoked on the driver with this identity. -/
  | disconnectCall (did : Nat)
  /-- the query text was dispatched to the backend (pool / query API). -/
  | backendQuery (did : Nat) (q : List Nat)
deriving DecidableEq, Repr

/-- Abstract state of one `DbDriver` instance. -/
structure MDriver where
  did : Nat
  readOnly : Bool
  connected : Bool
  connectThrows : Bool
  disconnectThrows : Bool
deriving DecidableEq, Repr

/-- `driver.connect()`: fails with a `ConnectionError`, or succeeds and
sets the connected flag. -/
def MDriver.connectOp (d : MDriver) : Except String MDriver :=
  if d.connectThrows then .error "ConnectionError" else .ok { d with connected := true }

/-- `driver.disconnect()`: fails, or succeeds and clears the connected
flag. -/
def MDriver.disconnectOp (d : MDriver) : Except String MDriver :=
  if d.disconnectThrows then .error "disconnect failed" else .ok { d with connected := false }

/-- `BaseDbDriver.isConnected`: returns the connected flag. -/
def MDriver.isConnected (d : MDriver) : Bool := d.connected

/-- `QueryResult` (column names, row count, optional affected rows);
rows themselves are irrelevant to the verified claims. -/
structure QueryResult where
  columns : List (List Nat)
  rowCount : Nat
  affectedRows : Option Nat
deriving DecidableEq, Repr

/-- The message thrown by `BaseDbDriver.validateQuery` — the
`ReadOnlyViolation` of the spec's taxonomy. -/
def readOnlyViolation : String := "Write queries are not allowed in read-only mode."

/-- `executeQuery` of the SQL/document driver variants (postgres, mysql,
mssql, sqlite, mongodb): throw when not connected, then
`this.validateQuery(sql)`, then dispatch to the backend (modelled by the
`backend` oracle) and return its result. -/
def sqlDriverExecuteQuery (backend : List Nat → QueryResult) (d : MDriver)
    (sql : List Nat) : Except String QueryResult × List DrvEvent :=
  if !d.connected then (.error "Not connected to database", [])
  else if d.readOnly && BaseDbDriver.isWriteQuery sql then (.error readOnlyViolation, [])
  else (.ok (backend sql), [.backendQuery d.did sql])

/-- `InfluxDBDriver.executeQuery`: throws when the query API handle is
null, otherwise streams the Flux query through `queryApi.queryRows`
without any read-only check (`validateQuery` is never called). -/
def influxExecuteQuery (backend : List Nat → QueryResult) (d : MDriver)
    (fluxQuery : List Nat) : Except String QueryResult × List DrvEvent :=
  if !d.connected then (.error "Not connected to InfluxDB", [])
  else (.ok (backend fluxQuery), [.backendQuery d.did fluxQuery])

/-- `PrometheusDriver.executeQuery`: throws when not connected, otherwise
issues the instant query against `/api/v1/query` without any read-only
check; a non-success response surfaces as an error after the I/O. -/
def promExecuteQuery (backend : List Nat → Except String QueryResult) (d : MDriver)
    (promQuery : List Nat) : Except String QueryResult × List DrvEvent :=
  if !d.connected then (.error "Not connected to Prometheus", [])
  else
    match backend promQuery with
    | .error e => (.error ("Prometheus query failed: " ++ e), [.backendQuery d.did promQuery])
    | .ok r => (.ok r, [.backendQuery d.did promQuery])

/-- A connected, read-only InfluxDB driver instance. -/
def influxRoDriver : MDriver :=
  { did := 7, readOnly := true, connected := true,
    connectThrows := false, disconnectThrows := false }

/-- A backend oracle returning an empty result for every query. -/
def emptyBackend : List Nat → QueryResult := fun _ => ⟨[], 0, none⟩

/-- Claim C1 (counterexample): on the InfluxDB driver variant with
`readOnly = true`, `executeQuery` of the write-classified text
`"DELETE FROM t"` does NOT fail with `ReadOnlyViolation` — it succeeds
and dispatches the text to the backend, because
`InfluxDBDriver.executeQuery` never calls `validateQuery`. -/
theorem influx_executeQuery_ignores_readOnly :
    BaseDbDriver.isWriteQuery (codes "DELETE FROM t") = true ∧
    influxRoDriver.readOnly = true ∧
    (influxExecuteQuery emptyBackend influxRoDriver (codes "DELETE FROM t")).1 =
      .ok ⟨[], 0, none⟩ ∧
    (influxExecuteQuery emptyBackend influxRoDriver (codes "DELETE FROM t")).2 =
      [.backendQuery 7 (codes "DELETE FROM t")] :=
  ⟨by decide, rfl, rfl, rfl⟩

/-- Claim C1 (amended): on a connected driver with `readOnly = true` and a
write-classified query text, the SQL/document driver variants (postgres,
mysql, mssql, sqlite, mongodb) fail with `ReadOnlyViolation` and perform
no backend I/O, because their `executeQuery` calls `validateQuery` before
dispatch; the time-series variants (influxdb, prometheus) skip
`validateQuery` and dispatch the text to the backend regardless. -/
theorem executeQuery_readOnly_enforcement
    (backend : List Nat → QueryResult) (pbackend : List Nat → Except String QueryResult)
    (d : MDriver) (sql : List Nat)
    (hconn : d.connected = true) (hro : d.readOnly = true)
    (hwq : BaseDbDriver.isWriteQuery sql = true) :
    sqlDriverExecuteQuery backend d sql = (.error readOnlyViolation, []) ∧
    influxExecuteQuery backend d sql = (.ok (backend sql), [.backendQuery d.did sql]) ∧
    (promExecuteQuery pbackend d sql).2 = [.backendQuery d.did sql] := by
  refine ⟨?_, ?_, ?_⟩
  · simp [sqlDriverExecuteQuery, hconn, hro, hwq]
  · simp [influxExecuteQuery, hconn]
  · simp only [promExecuteQuery, hconn]
    cases pbackend sql <;> simp

/-- Witness for the amended claim C1 at a concrete driver and query. -/
theorem executeQuery_readOnly_enforcement_witness :
    sqlDriverExecuteQuery emptyBackend influxRoDriver (codes "DELETE FROM t") =
      (.error readOnlyViolation, []) ∧
    influxExecuteQuery emptyBackend influxRoDriver (codes "DELETE FROM t") =
      (.ok (emptyBackend (codes "DELETE FROM t")),
        [.backendQuery influxRoDriver.did (codes "DELETE FROM t")]) ∧
    (promExecuteQuery (fun q => .ok (emptyBackend q)) influxRoDriver
        (codes "DELETE FROM t")).2 =
      [.backendQuery influxRoDriver.did (codes "DELETE FROM t")] :=
  executeQuery_readOnly_enforcement emptyBackend (fun q => .ok (emptyBackend q))
    influxRoDriver (codes "DELETE FROM t") rfl rfl (by decide)

/-! ## Connection lifecycle registry (`driverRegistry.ts`)

`DriverRegistry.drivers` is a `Map<string, DbDriver>`; it is modelled as
an association list with unique keys kept in insertion order, which is
how a JavaScript `Map` iterates. -/

/-- The registry's driver cache. -/
abbrev RegState : Type := List (String × MDriver)

/-- `Map.get`. -/
def mapGet : RegState → String → Option MDriver
  | [], _ => none
  | (k, d) :: rest, id => if k = id then some d else mapGet rest id

/-- `Map.delete`. -/
def mapDelete : RegState → String → RegState
  | [], _ => []
  | (k, d) :: rest, id => if k = id then mapDelete rest id else (k, d) :: mapDelete rest id

/-- `Map.set`: replace in place when the key exists, else append. -/
def mapSet : RegState → String → MDriver → RegState
  | [], id, v => [(id, v)]
  | (k, d) :: rest, id, v => if k = id then (id, v) :: rest else (k, d) :: mapSet rest id v

theorem mapGet_mapDelete_self (st : RegState) (id : String) :
    mapGet (mapDelete st id) id = none := by
  induction st with
  | nil => rfl
  | cons kd rest ih =>
    obtain ⟨k, d⟩ := kd
    by_cases h : k = id
    · simpa [mapDelete, h] using ih
    · simp [mapDelete, mapGet, h, ih]

theorem mapGet_mapSet_ne (st : RegState) (id k : String) (v : MDriver) (h : k ≠ id) :
    mapGet (mapSet st id v) k = mapGet st k := by
  induction st with
  | nil => simp [mapSet, mapGet, Ne.symm h]
  | cons kd rest ih =>
    obtain ⟨k', d⟩ := kd
    by_cases h' : k' = id
    · subst h'
      simp [mapSet, mapGet, h, Ne.symm h]
    · simp [mapSet, mapGet, h', ih]

theorem mapGet_mapSet_self (st : RegState) (id : String) (v : MDriver) :
    mapGet (mapSet st id v) id = some v := by
  induction st with
  | nil => simp [mapSet, mapGet]
  | cons kd rest ih =>
    obtain ⟨k', d⟩ := kd
    by_cases h' : k' = id <;> simp [mapSet, mapGet, h', ih]

/-- `DriverRegistry.disconnect(connectionId)`: look up the cached driver;
when present, `await driver.disconnect()` and then delete the cache
entry. The `delete` is only reached when `disconnect` resolves — a
rejection propagates with the cache unchanged. -/
def DriverRegistry.disconnect (st : RegState) (connectionId : String) :
    Except String Unit × RegState × List DrvEvent :=
  match mapGet st connectionId with
  | none => (.ok (), st, [])
  | some driver =>
    match driver.disconnectOp with
    | .error e => (.error e, st, [.disconnectCall driver.did])
    | .ok _ => (.ok (), mapDelete st connectionId, [.disconnectCall driver.did])

/-- A cached driver whose backend `disconnect` rejects. -/
def badDisconnectDriver : MDriver :=
  { did := 3, readOnly := false, connected := true,
    connectThrows := false, disconnectThrows := true }

/-- Claim C2 (counterexample): when the cached driver's `disconnect`
throws, `DriverRegistry.disconnect` propagates the error and the instance
is NOT removed from the cache — `getDriver(id)` still returns it,
because `this.drivers.delete` is only reached after a successful await. -/
theorem registry_disconnect_keeps_entry_on_throw :
    (DriverRegistry.disconnect [("c1", badDisconnectDriver)] "c1").1 =
      .error "disconnect failed" ∧
    mapGet (DriverRegistry.disconnect [("c1", badDisconnectDriver)] "c1").2.1 "c1" =
      some badDisconnectDriver :=
  ⟨rfl, rfl⟩

/-- Claim C2 (amended): `DriverRegistry.disconnect(id)` calls
`disconnect` on the cached instance if one is present; when that call
succeeds the instance is removed from the cache and `getDriver(id)` is
undefined afterwards; when it throws, the error propagates and the
instance remains cached. -/
theorem registry_disconnect_spec (st : RegState) (id : String) (driver : MDriver)
    (hget : mapGet st id = some driver) :
    (driver.disconnectThrows = false →
      DriverRegistry.disconnect st id =
        (.ok (), mapDelete st id, [.disconnectCall driver.did]) ∧
      mapGet (DriverRegistry.disconnect st id).2.1 id = none) ∧
    (driver.disconnectThrows = true →
      DriverRegistry.disconnect st id =
        (.error "disconnect failed", st, [.disconnectCall driver.did]) ∧
      mapGet (DriverRegistry.disconnect st id).2.1 id = some driver) := by
  constructor
  · intro hok
    have h1 : DriverRegistry.disconnect st id =
        (.ok (), mapDelete st id, [.disconnectCall driver.did]) := by
      simp [DriverRegistry.disconnect, hget, MDriver.disconnectOp, hok]
    exact ⟨h1, by rw [h1]; exact mapGet_mapDelete_self st id⟩
  · intro hthrow
    have h1 : DriverRegistry.disconnect st id =
        (.error "disconnect failed", st, [.disconnectCall driver.did]) := by
      simp [DriverRegistry.disconnect, hget, MDriver.disconnectOp, hthrow]
    exact ⟨h1, by rw [h1]; exact hget⟩

/-- Witness for the amended claim C2: one entry whose disconnect
succeeds, one whose disconnect throws. -/
theorem registry_disconnect_spec_witness :
    (DriverRegistry.disconnect [("c1", badDisconnectDriver)] "c1" =
      (.error "disconnect failed", [("c1", badDisconnectDriver)],
        [.disconnectCall badDisconnectDriver.did]) ∧
     mapGet (DriverRegistry.disconnect [("c1", badDisconnectDriver)] "c1").2.1 "c1" =
       some badDisconnectDriver) ∧
    (DriverRegistry.disconnect [("c2", influxRoDriver)] "c2" =
      (.ok (), mapDelete [("c2", influxRoDriver)] "c2",
        [.disconnectCall influxRoDriver.did]) ∧
     mapGet (DriverRegistry.disconnect [("c2", influxRoDriver)] "c2").2.1 "c2" = none) :=
  ⟨(registry_disconnect_spec [("c1", badDisconnectDriver)] "c1" badDisconnectDriver
      (by decide)).2 (by decide),
   (registry_disconnect_spec [("c2", influxRoDriver)] "c2" influxRoDriver
      (by decide)).1 (by decide)⟩

/-- `.catch(err => console.error(...))` on one disconnect promise: a
rejection is converted into a logged message and a resolved promise. -/
def catchLog (r : Except String MDriver) : Option String × Except String Unit :=
  match r with
  | .error e => (some e, .ok ())
  | .ok _ => (none, .ok ())

/-- `Promise.all`: rejects with the first rejection, else resolves. -/
def promiseAll : List (Except String Unit) → Except String Unit
  | [] => .ok ()
  | .error e :: _ => .error e
  | .ok () :: rest => promiseAll rest

/-- Outcome of `DriverRegistry.disconnectAll`. -/
structure DisconnectAllResult where
  outcome : Except String Unit
  logged : List String
  cache : RegState
  events : List DrvEvent

/-- `DriverRegistry.disconnectAll()`: map every cached driver to
`driver.disconnect().catch(log)`, await `Promise.all` over the settled
promises, then clear the cache. A rejection of `Promise.all` would skip
the `clear`. -/
def DriverRegistry.disconnectAll (st : RegState) : DisconnectAllResult :=
  let settled := st.map (fun kd => catchLog kd.2.disconnectOp)
  let logged := settled.filterMap (fun s => s.1)
  let events := st.map (fun kd => DrvEvent.disconnectCall kd.2.did)
  match promiseAll (settled.map (fun s => s.2)) with
  | .error e => ⟨.error e, logged, st, events⟩
  | .ok () => ⟨.ok (), logged, [], events⟩

theorem promiseAll_of_caught (rs : List (Except String MDriver)) :
    promiseAll (rs.map (fun r => (catchLog r).2)) = .ok () := by
  induction rs with
  | nil => rfl
  | cons r rest ih => cases r <;> simpa [catchLog, promiseAll] using ih

/-- Claim C7: `disconnectAll` never raises, invokes `disconnect` on every
cached driver, logs each failing driver's error individually, and leaves
the cache empty. -/
theorem registry_disconnectAll_spec (st : RegState) :
    (DriverRegistry.disconnectAll st).outcome = .ok () ∧
    (DriverRegistry.disconnectAll st).cache = [] ∧
    (DriverRegistry.disconnectAll st).logged =
      st.filterMap (fun kd =>
        if kd.2.disconnectThrows then some "disconnect failed" else none) ∧
    ∀ kd ∈ st, DrvEvent.disconnectCall kd.2.did ∈ (DriverRegistry.disconnectAll st).events := by
  have hall : promiseAll (st.map fun kd => (catchLog kd.2.disconnectOp).2) = .ok () := by
    simpa [List.map_map, Function.comp_def] using
      promiseAll_of_caught (st.map fun kd => kd.2.disconnectOp)
  refine ⟨?_, ?_, ?_, ?_⟩ <;>
    simp only [DriverRegistry.disconnectAll, List.map_map, Function.comp_def, hall]
  · rw [List.filterMap_map]
    apply List.filterMap_congr
    intro kd _
    by_cases h : kd.2.disconnectThrows <;>
      simp [Function.comp_def, MDriver.disconnectOp, catchLog, h]
  · intro kd hkd
    exact List.mem_map.mpr ⟨kd, hkd, rfl⟩

/-- Witness for claim C7: two cached drivers, the first one's disconnect
throws; both disconnects are invoked and the call resolves with an empty
cache. -/
theorem registry_disconnectAll_spec_witness :
    (DriverRegistry.disconnectAll
        [("c1", badDisconnectDriver), ("c2", influxRoDriver)]).outcome = .ok () ∧
    (DriverRegistry.disconnectAll
        [("c1", badDisconnectDriver), ("c2", influxRoDriver)]).cache = [] ∧
    DrvEvent.disconnectCall influxRoDriver.did ∈
      (DriverRegistry.disconnectAll
        [("c1", badDisconnectDriver), ("c2", influxRoDriver)]).events :=
  ⟨(registry_disconnectAll_spec [("c1", badDisconnectDriver), ("c2", influxRoDriver)]).1,
   (registry_disconnectAll_spec [("c1", badDisconnectDriver), ("c2", influxRoDriver)]).2.1,
   (registry_disconnectAll_spec [("c1", badDisconnectDriver), ("c2", influxRoDriver)]).2.2.2
     ("c2", influxRoDriver) (by decide)⟩

/-- The slice of `ConnectionConfig` the registry's `connect` needs:
the driver-type id and the read-only flag. -/
structure MConfig where
  dtype : String
  readOnly : Bool
deriving DecidableEq, Repr

/-- `DriverRegistry.connect(connectionId)`: return the cached driver when
it reports connected; otherwise resolve config and password from the
store, build a driver via the factory (`create` may fail with
`UnknownDriverType`), `await driver.connect()`, and overwrite the cache
entry. The stale cached instance is never disconnected. -/
def DriverRegistry.connect
    (getConnection : String → Option MConfig)
    (getPassword : String → Option String)
    (create : MConfig → String → Except String MDriver)
    (st : RegState) (connectionId : String) :
    Except String MDriver × RegState × List DrvEvent :=
  let proceed : Except String MDriver × RegState × List DrvEvent :=
    match getConnection connectionId with
    | none => (.error ("Connection " ++ connectionId ++ " not found"), st, [])
    | some config =>
      let password := (getPassword connectionId).getD ""
      match create config password with
      | .error e => (.error e, st, [])
      | .ok driver =>
        match driver.connectOp with
        | .error e => (.error e, st, [.connectCall driver.did])
        | .ok driver' =>
          (.ok driver', mapSet st connectionId driver', [.connectCall driver.did])
  match mapGet st connectionId with
  | some existing => if existing.isConnected then (.ok existing, st, []) else proceed
  | none => proceed

/-- Claim C9: when the cached driver for `id` reports disconnected,
`connect(id)` builds and connects a fresh driver and overwrites the cache
entry with it; it never invokes `disconnect` on the stale instance, and
every other cache entry is unchanged. -/
theorem registry_connect_overwrites_stale
    (getConnection : String → Option MConfig) (getPassword : String → Option String)
    (create : MConfig → String → Except String MDriver)
    (st : RegState) (id : String) (stale : MDriver) (cfg : MConfig) (d : MDriver)
    (hstale : mapGet st id = some stale) (hdisc : stale.connected = false)
    (hcfg : getConnection id = some cfg)
    (hcreate : create cfg ((getPassword id).getD "") = .ok d)
    (hok : d.connectThrows = false) :
    DriverRegistry.connect getConnection getPassword create st id =
      (.ok { d with connected := true },
       mapSet st id { d with connected := true },
       [.connectCall d.did]) ∧
    mapGet (DriverRegistry.connect getConnection getPassword create st id).2.1 id =
      some { d with connected := true } ∧
    (∀ k, k ≠ id →
      mapGet (DriverRegistry.connect getConnection getPassword create st id).2.1 k =
        mapGet st k) ∧
    (∀ n, DrvEvent.disconnectCall n ∉
      (DriverRegistry.connect getConnection getPassword create st id).2.2) := by
  have h1 : DriverRegistry.connect getConnection getPassword create st id =
      (.ok { d with connected := true },
       mapSet st id { d with connected := true },
       [.connectCall d.did]) := by
    simp [DriverRegistry.connect, hstale, hdisc, hcfg, hcreate,
      MDriver.isConnected, MDriver.connectOp, hok]
  refine ⟨h1, ?_, ?_, ?_⟩
  · rw [h1]
    exact mapGet_mapSet_self st id _
  · intro k hk
    rw [h1]
    exact mapGet_mapSet_ne st id k _ hk
  · intro n
    rw [h1]
    simp

/-- A cached driver instance that reports disconnected. -/
def staleDriver : MDriver :=
  { did := 1, readOnly := false, connected := false,
    connectThrows := false, disconnectThrows := false }

/-- A fresh driver built by the factory for the reconnect. -/
def freshDriver : MDriver :=
  { did := 42, readOnly := false, connected := false,
    connectThrows := false, disconnectThrows := false }

/-- Witness for claim C9 at a concrete two-entry cache. -/
theorem registry_connect_overwrites_stale_witness :
    (DriverRegistry.connect (fun _ => some ⟨"postgres", false⟩) (fun _ => some "pw")
        (fun _ _ => .ok freshDriver)
        [("c1", staleDriver), ("c2", influxRoDriver)] "c1" =
      (.ok { freshDriver with connected := true },
       mapSet [("c1", staleDriver), ("c2", influxRoDriver)] "c1"
         { freshDriver with connected := true },
       [.connectCall freshDriver.did])) ∧
    mapGet (DriverRegistry.connect (fun _ => some ⟨"postgres", false⟩)
        (fun _ => some "pw") (fun _ _ => .ok freshDriver)
        [("c1", staleDriver), ("c2", influxRoDriver)] "c1").2.1 "c2" =
      mapGet [("c1", staleDriver), ("c2", influxRoDriver)] "c2" ∧
    DrvEvent.disconnectCall staleDriver.did ∉
      (DriverRegistry.connect (fun _ => some ⟨"postgres", false⟩) (fun _ => some "pw")
        (fun _ _ => .ok freshDriver)
        [("c1", staleDriver), ("c2", influxRoDriver)] "c1").2.2 :=
  ⟨(registry_connect_overwrites_stale (fun _ => some ⟨"postgres", false⟩)
      (fun _ => some "pw") (fun _ _ => .ok freshDriver)
      [("c1", staleDriver), ("c2", influxRoDriver)] "c1" staleDriver
      ⟨"postgres", false⟩ freshDriver (by decide) rfl rfl rfl rfl).1,
   (registry_connect_overwrites_stale (fun _ => some ⟨"postgres", false⟩)
      (fun _ => some "pw") (fun _ _ => .ok freshDriver)
      [("c1", staleDriver), ("c2", influxRoDriver)] "c1" staleDriver
      ⟨"postgres", false⟩ freshDriver (by decide) rfl rfl rfl rfl).2.2.1 "c2" (by decide),
   (registry_connect_overwrites_stale (fun _ => some ⟨"postgres", false⟩)
      (fun _ => some "pw") (fun _ _ => .ok freshDriver)
      [("c1", staleDriver), ("c2", influxRoDriver)] "c1" staleDriver
      ⟨"postgres", false⟩ freshDriver (by decide) rfl rfl rfl rfl).2.2.2
     staleDriver.did⟩

/-! ## Replica router (`networking/replicaRouter.ts`) -/

/-- The `loadBalancing` union of `ReplicaConfig`. -/
inductive LoadBalancing where
  | roundRobin
  | random
  | firstAvailable
deriving DecidableEq, Repr

/-- One read-replica endpoint (`ReadReplicaHost` without the unused
weight). -/
structure Endpoint where
  host : String
  port : Nat
deriving DecidableEq, Repr

/-- `ReplicaConfig`: one write endpoint, ordered read endpoints, and the
load-balancing strategy. -/
structure MReplicaConfig where
  writeHost : String
  writePort : Nat
  readHosts : List Endpoint
  loadBalancing : LoadBalancing
deriving DecidableEq, Repr

/-- Mutable state of a `ReplicaRouter`: the write driver, the ordered
read drivers, the round-robin cursor, and the configured strategy. -/
structure RouterState where
  writeDriver : Option MDriver
  readDrivers : List MDriver
  currentReadIndex : Nat
  loadBalancing : LoadBalancing
deriving DecidableEq, Repr

/-- `ReplicaRouter.getWriteDriver`: throws when the write driver is
absent. -/
def ReplicaRouter.getWriteDriver (rs : RouterState) : Except String MDriver :=
  match rs.writeDriver with
  | none => .error "Write replica not connected"
  | some d => .ok d

/-- `ReplicaRouter.getReadDriver`: with no read replicas, falls back to
the write driver; otherwise selects by strategy (the round-robin branch
advances the cursor modulo the replica count; the `random` branch uses
the oracle `rand`, modelling `Math.floor(Math.random() * length)`); if
the selected driver reports disconnected, falls back to the write
driver. An out-of-range array access yields a TypeError. -/
def ReplicaRouter.getReadDriver (rand : Nat) (rs : RouterState) :
    Except String MDriver × RouterState :=
  if rs.readDrivers.length = 0 then (ReplicaRouter.getWriteDriver rs, rs)
  else
    let selected : Option MDriver × RouterState :=
      match rs.loadBalancing with
      | .roundRobin =>
        (rs.readDrivers.get? rs.currentReadIndex,
         { rs with currentReadIndex := (rs.currentReadIndex + 1) % rs.readDrivers.length })
      | .random => (rs.readDrivers.get? rand, rs)
      | .firstAvailable =>
        (match rs.readDrivers.find? (fun d => d.isConnected) with
         | some d => some d
         | none => rs.readDrivers.get? 0, rs)
    match selected with
    | (none, rs') => (.error "TypeError: selected driver is undefined", rs')
    | (some driver, rs') =>
      if !driver.isConnected then (ReplicaRouter.getWriteDriver rs', rs')
      else (.ok driver, rs')

/-- Run `getReadDriver` once per oracle in `rands`, threading the router
state and collecting the results. -/
def runReadDrivers (rands : List Nat) (rs : RouterState) :
    List (Except String MDriver) × RouterState :=
  match rands with
  | [] => ([], rs)
  | r :: rest =>
    let (d, rs') := ReplicaRouter.getReadDriver r rs
    let (ds, rs'') := runReadDrivers rest rs'
    (d :: ds, rs'')

/-- Claim C5: with the round-robin strategy and three connected read
drivers, six consecutive `getReadDriver()` calls return each driver
exactly twice, in cyclic order starting from the first. -/
theorem roundRobin_three_replicas_cycle
    (w : Option MDriver) (d0 d1 d2 : MDriver)
    (h0 : d0.connected = true) (h1 : d1.connected = true) (h2 : d2.connected = true) :
    (runReadDrivers [0, 0, 0, 0, 0, 0]
      { writeDriver := w, readDrivers := [d0, d1, d2],
        currentReadIndex := 0, loadBalancing := .roundRobin }).1 =
      [.ok d0, .ok d1, .ok d2, .ok d0, .ok d1, .ok d2] := by
  simp [runReadDrivers, ReplicaRouter.getReadDriver, MDriver.isConnected, h0, h1, h2]

/-- Witness for claim C5 at three concrete connected drivers. -/
theorem roundRobin_three_replicas_cycle_witness :
    (runReadDrivers [0, 0, 0, 0, 0, 0]
      { writeDriver := none,
        readDrivers := [{ staleDriver with did := 10, connected := true },
                        { staleDriver with did := 11, connected := true },
                        { staleDriver with did := 12, connected := true }],
        currentReadIndex := 0, loadBalancing := .roundRobin }).1 =
      [.ok { staleDriver with did := 10, connected := true },
       .ok { staleDriver with did := 11, connected := true },
       .ok { staleDriver with did := 12, connected := true },
       .ok { staleDriver with did := 10, connected := true },
       .ok { staleDriver with did := 11, connected := true },
       .ok { staleDriver with did := 12, connected := true }] :=
  roundRobin_three_replicas_cycle none
    { staleDriver with did := 10, connected := true }
    { staleDriver with did := 11, connected := true }
    { staleDriver with did := 12, connected := true } rfl rfl rfl

/-- Claim C6: with the write driver present, `getReadDriver()` returns
the write driver whenever the read-driver list is empty, and also — for
every load-balancing strategy (with a valid cursor and random oracle) —
whenever every read driver reports disconnected; it never fails the
caller in those states. -/
theorem getReadDriver_falls_back_to_write
    (rs : RouterState) (w : MDriver) (rand : Nat)
    (hw : rs.writeDriver = some w) :
    (rs.readDrivers = [] → ReplicaRouter.getReadDriver rand rs = (.ok w, rs)) ∧
    ((∀ d ∈ rs.readDrivers, d.connected = false) →
      rs.currentReadIndex < rs.readDrivers.length →
      rand < rs.readDrivers.length →
      (ReplicaRouter.getReadDriver rand rs).1 = .ok w) := by
  constructor
  · intro hempty
    simp [ReplicaRouter.getReadDriver, hempty, ReplicaRouter.getWriteDriver, hw]
  · intro hdisc hidx hrand
    have hne : ¬ rs.readDrivers.length = 0 := by omega
    cases hlb : rs.loadBalancing
    case roundRobin =>
      have hd : rs.readDrivers[rs.currentReadIndex]? =
          some rs.readDrivers[rs.currentReadIndex] :=
        List.getElem?_eq_getElem hidx
      have hc : rs.readDrivers[rs.currentReadIndex].connected = false :=
        hdisc _ (List.getElem_mem hidx)
      simp [ReplicaRouter.getReadDriver, hne, hlb, hd, MDriver.isConnected, hc,
        ReplicaRouter.getWriteDriver, hw]
    case random =>
      have hd : rs.readDrivers[rand]? = some rs.readDrivers[rand] :=
        List.getElem?_eq_getElem hrand
      have hc : rs.readDrivers[rand].connected = false :=
        hdisc _ (List.getElem_mem hrand)
      simp [ReplicaRouter.getReadDriver, hne, hlb, hd, MDriver.isConnected, hc,
        ReplicaRouter.getWriteDriver, hw]
    case firstAvailable =>
      have hfind : List.find? (fun d => d.connected) rs.readDrivers = none := by
        rw [List.find?_eq_none]
        intro d hd
        simp [hdisc d hd]
      have hzero : 0 < rs.readDrivers.length := by omega
      have hd : rs.readDrivers[0]? = some rs.readDrivers[0] :=
        List.getElem?_eq_getElem hzero
      have hc : rs.readDrivers[0].connected = false :=
        hdisc _ (List.getElem_mem hzero)
      simp [ReplicaRouter.getReadDriver, hne, hlb, hfind, hd, MDriver.isConnected, hc,
        ReplicaRouter.getWriteDriver, hw]

/-- A connected write driver for the router witnesses. -/
def writeDriver0 : MDriver :=
  { did := 20, readOnly := false, connected := true,
    connectThrows := false, disconnectThrows := false }

/-- Witness for claim C6: an empty read list, and a one-element
disconnected read list under each strategy. -/
theorem getReadDriver_falls_back_to_write_witness :
    ReplicaRouter.getReadDriver 0
      { writeDriver := some writeDriver0, readDrivers := [],
        currentReadIndex := 0, loadBalancing := .roundRobin } =
      (.ok writeDriver0,
        { writeDriver := some writeDriver0, readDrivers := [],
          currentReadIndex := 0, loadBalancing := .roundRobin }) ∧
    (ReplicaRouter.getReadDriver 0
      { writeDriver := some writeDriver0, readDrivers := [staleDriver],
        currentReadIndex := 0, loadBalancing := .roundRobin }).1 = .ok writeDriver0 ∧
    (ReplicaRouter.getReadDriver 0
      { writeDriver := some writeDriver0, readDrivers := [staleDriver],
        currentReadIndex := 0, loadBalancing := .random }).1 = .ok writeDriver0 ∧
    (ReplicaRouter.getReadDriver 0
      { writeDriver := some writeDriver0, readDrivers := [staleDriver],
        currentReadIndex := 0, loadBalancing := .firstAvailable }).1 = .ok writeDriver0 :=
  ⟨(getReadDriver_falls_back_to_write
      { writeDriver := some writeDriver0, readDrivers := [],
        currentReadIndex := 0, loadBalancing := .roundRobin } writeDriver0 0 rfl).1 rfl,
   (getReadDriver_falls_back_to_write
      { writeDriver := some writeDriver0, readDrivers := [staleDriver],
        currentReadIndex := 0, loadBalancing := .roundRobin } writeDriver0 0 rfl).2
     (by decide) (by decide) (by decide),
   (getReadDriver_falls_back_to_write
      { writeDriver := some writeDriver0, readDrivers := [staleDriver],
        currentReadIndex := 0, loadBalancing := .random } writeDriver0 0 rfl).2
     (by decide) (by decide) (by decide),
   (getReadDriver_falls_back_to_write
      { writeDriver := some writeDriver0, readDrivers := [staleDriver],
        currentReadIndex := 0, loadBalancing := .firstAvailable } writeDriver0 0 rfl).2
     (by decide) (by decide) (by decide)⟩

/-- The read-replica loop of `ReplicaRouter.connect`: for each read host
in order, build a driver via the factory, `await readDriver.connect()`,
and push it onto `this.readDrivers`; a failing connect propagates
immediately, keeping the drivers pushed so far. -/
def connectReadReplicas (create : Endpoint → MDriver) (hosts : List Endpoint)
    (rs : RouterState) : Except String Unit × RouterState :=
  match hosts with
  | [] => (.ok (), rs)
  | e :: rest =>
    let readDriver := create e
    match readDriver.connectOp with
    | .error err => (.error err, rs)
    | .ok d' =>
      connectReadReplicas create rest { rs with readDrivers := rs.readDrivers ++ [d'] }

/-- `ReplicaRouter.connect()`: assign `this.writeDriver` to a freshly
built driver, `await` its connect (a failure leaves the unconnected
driver assigned), then connect the read replicas in order. -/
def ReplicaRouter.connect (create : Endpoint → MDriver) (cfg : MReplicaConfig)
    (rs : RouterState) : Except String Unit × RouterState :=
  let writeDriver := create ⟨cfg.writeHost, cfg.writePort⟩
  match writeDriver.connectOp with
  | .error e => (.error e, { rs with writeDriver := some writeDriver })
  | .ok wd' => connectReadReplicas create cfg.readHosts { rs with writeDriver := some wd' }

theorem connectReadReplicas_fails_at (create : Endpoint → MDriver)
    (pre : List Endpoint) (bad : Endpoint) (rest : List Endpoint)
    (hpre : ∀ e ∈ pre, (create e).connectThrows = false)
    (hbad : (create bad).connectThrows = true) (rs : RouterState) :
    connectReadReplicas create (pre ++ bad :: rest) rs =
      (.error "ConnectionError",
       { rs with readDrivers :=
          rs.readDrivers ++ pre.map (fun e => { create e with connected := true }) }) := by
  induction pre generalizing rs with
  | nil => simp [connectReadReplicas, MDriver.connectOp, hbad]
  | cons e pre ih =>
    have he : (create e).connectThrows = false := hpre e (by simp)
    have hpre' : ∀ x ∈ pre, (create x).connectThrows = false := fun x hx =>
      hpre x (by simp [hx])
    simp only [List.cons_append, connectReadReplicas, MDriver.connectOp, he,
      Bool.false_eq_true, if_false, List.append_eq]
    rw [ih hpre']
    simp [he]

/-- Claim C10: `ReplicaRouter.connect` is not atomic — when the `k`-th
read replica's connect fails, the error propagates while the write
driver stays assigned and connected, and the read drivers for the
replicas before the `k`-th stay connected and stored in order. -/
theorem router_connect_not_atomic (create : Endpoint → MDriver) (cfg : MReplicaConfig)
    (pre rest : List Endpoint) (bad : Endpoint)
    (hw : (create ⟨cfg.writeHost, cfg.writePort⟩).connectThrows = false)
    (hr : cfg.readHosts = pre ++ bad :: rest)
    (hpre : ∀ e ∈ pre, (create e).connectThrows = false)
    (hbad : (create bad).connectThrows = true) :
    ReplicaRouter.connect create cfg
      { writeDriver := none, readDrivers := [], currentReadIndex := 0,
        loadBalancing := cfg.loadBalancing } =
      (.error "ConnectionError",
       { writeDriver :=
           some { create ⟨cfg.writeHost, cfg.writePort⟩ with connected := true },
         readDrivers := pre.map (fun e => { create e with connected := true }),
         currentReadIndex := 0, loadBalancing := cfg.loadBalancing }) := by
  simp only [ReplicaRouter.connect, MDriver.connectOp, hw, Bool.false_eq_true, if_false, hr]
  rw [connectReadReplicas_fails_at create pre bad rest hpre hbad]
  simp

/-- Endpoints for the C10 witness: the replica on port 2 fails to
connect, the others succeed. -/
def mkReplicaDriver (e : Endpoint) : MDriver :=
  { did := e.port, readOnly := false, connected := false,
    connectThrows := e.port = 2, disconnectThrows := false }

/-- Witness for claim C10: write endpoint plus read replicas on ports
1, 2, 3 where the second replica's connect fails. -/
theorem router_connect_not_atomic_witness :
    ReplicaRouter.connect mkReplicaDriver
      { writeHost := "w", writePort := 0,
        readHosts := [⟨"r1", 1⟩, ⟨"r2", 2⟩, ⟨"r3", 3⟩],
        loadBalancing := .roundRobin }
      { writeDriver := none, readDrivers := [], currentReadIndex := 0,
        loadBalancing := .roundRobin } =
      (.error "ConnectionError",
       { writeDriver := some { mkReplicaDriver ⟨"w", 0⟩ with connected := true },
         readDrivers := [{ mkReplicaDriver ⟨"r1", 1⟩ with connected := true }],
         currentReadIndex := 0, loadBalancing := .roundRobin }) := by
  have h := router_connect_not_atomic mkReplicaDriver
    { writeHost := "w", writePort := 0,
      readHosts := [⟨"r1", 1⟩, ⟨"r2", 2⟩, ⟨"r3", 3⟩],
      loadBalancing := .roundRobin }
    [⟨"r1", 1⟩] [⟨"r3", 3⟩] ⟨"r2", 2⟩ (by decide) rfl (by decide) (by decide)
  simpa using h
